import Mathlib

/-!
Shallow embedding of `src/server/network_scan_service.py` (class `NetworkScanService`).

Python dictionaries whose values are either strings or lists of strings are
modelled as association lists `List (String × Val)`.  The service state holds
the fields set in `__init__`: the optional task handle (with its `done()`
flag), the cancellation event, the progress dictionary, the parameters and
the log list.  The coroutine `_run_scan` is modelled as a pure function of
the service state and an environment describing what the outside world does
during the run: whether `create_subprocess_exec` succeeds or raises (with the
exception's text), which decoded output lines are read before the loop ends,
and how the loop ends (end of stream, an observed cancellation signal, or an
exception during the loop).  If the cancellation event is already set when
the run starts, the first poll of the loop observes it, so the lines and
ending supplied by the environment are overridden by the forced cancel path,
exactly as in the source.  The run returns the final state, the ordered list
of progress snapshots published via `_set_progress`, the argument vector
passed to `create_subprocess_exec`, and whether `process.terminate()` was
called.
-/

/-- A value stored in one of the Python dictionaries of the service:
either a string or a list of strings (the `logs` entry). -/
inductive Val where
  | str (s : String)
  | strs (l : List String)
deriving DecidableEq, Repr

/-- A Python dict with string keys, as an association list in insertion order. -/
abbrev PyDict := List (String × Val)

/-- Lookup of a key in a dict (`d[k]` on the read side): first matching entry. -/
def getKey : PyDict → String → Option Val
  | [], _ => none
  | (k1, v) :: rest, k => if k1 = k then some v else getKey rest k

/-- Assignment `d[k] = v`: replace the entry in place if the key is present,
otherwise append the new entry at the end, as Python dicts do. -/
def setKey : PyDict → String → Val → PyDict
  | [], k, v => [(k, v)]
  | (k1, v1) :: rest, k, v =>
      if k1 = k then (k, v) :: rest else (k1, v1) :: setKey rest k v

/-- The fields of a `NetworkScanService` instance.  `task = none` means
`self._task is None`; `task = some d` means a task exists and `d` is the
value of `task.done()`. -/
structure ScanService where
  task : Option Bool
  cancelEvent : Bool
  progress : PyDict
  params : PyDict
  logs : List String
deriving DecidableEq, Repr

namespace NetworkScanService

/-- `__init__`: no task, cleared event, empty progress, params and logs. -/
def init : ScanService :=
  { task := none, cancelEvent := false, progress := [], params := [], logs := [] }

/-- The fixed command list built at the top of `_run_scan`. -/
def cmd : List String := ["nmap", "-sn", "-T4", "10.20.148.0/16"]

/-- `' '.join(cmd)`. -/
def cmdString : String := String.intercalate " " cmd

/-- The startup log message `f"Starting network scan: {' '.join(cmd)}"`. -/
def startup_msg : String := "Starting network scan: " ++ cmdString

/-- `_append_log`: append one line to `self._logs`. -/
def append_log (s : ScanService) (l : String) : ScanService :=
  { s with logs := s.logs ++ [l] }

/-- `_set_progress`: replace `self._progress` by the given dict. -/
def set_progress (s : ScanService) (p : PyDict) : ScanService :=
  { s with progress := p }

/-- `start_scan`: raises `RuntimeError("Scan already running")` when a task
exists and is not done; otherwise clears the cancel event, installs the new
params, resets the logs and creates a new (not yet done) task.  The returned
pair is the call's outcome together with the state after the call. -/
def start_scan (s : ScanService) (params : PyDict) :
    Except String Unit × ScanService :=
  match s.task with
  | some false => (Except.error "Scan already running", s)
  | _ =>
      (Except.ok (),
        { s with
          cancelEvent := false
          params := params
          logs := []
          task := some false })

/-- `cancel_scan`: set the cancellation event. -/
def cancel_scan (s : ScanService) : ScanService :=
  { s with cancelEvent := true }

/-- `get_progress`: a copy of the progress dict with its `logs` entry set to
a copy of the current log list. -/
def get_progress (s : ScanService) : PyDict :=
  setKey s.progress "logs" (Val.strs s.logs)

/-- `get_params`: a copy of the current parameters. -/
def get_params (s : ScanService) : PyDict :=
  s.params

/-- How the read loop of `_run_scan` ends, after the successfully read lines:
end of stream (with `process.wait()` succeeding), an observed cancellation
signal at a polling point, or an exception (with its text) raised inside the
`try` block after the launch. -/
inductive RunEnding where
  | eof
  | cancelled
  | exn (msg : String)
deriving DecidableEq, Repr

/-- Environment of one run: the outcome of `create_subprocess_exec` (the
error carries `str(e)`), the decoded output lines successfully read before
the loop ends, how the loop ends, and the process exit code observed by
`process.wait()` (never inspected by the code). -/
structure ScanEnv where
  launch : Except String Unit
  lines : List String
  ending : RunEnding
  exitCode : Int
deriving Repr

/-- Result of one run of `_run_scan`: the final service state, the progress
snapshots published in order, the argument vector handed to
`create_subprocess_exec`, and whether `process.terminate()` was called. -/
structure RunResult where
  final : ScanService
  trace : List PyDict
  invoked : List String
  terminated : Bool
deriving DecidableEq, Repr

/-- The task handle becomes done when the coroutine returns. -/
def markDone (s : ScanService) : ScanService :=
  { s with task := some true }

/-- Lines 30-32 of the source: append the startup message and publish the
`starting` snapshot.  Returns the new state and the published snapshot. -/
def startupPhase (s : ScanService) : ScanService × PyDict :=
  let s1 := append_log s startup_msg
  let snap : PyDict :=
    [("status", Val.str "starting"), ("cmd", Val.str cmdString),
     ("logs", Val.strs s1.logs)]
  (set_progress s1 snap, snap)

/-- The body of the read loop for the successfully read lines: each line is
appended to the logs and a `scanning` snapshot is published.  Returns the
state after all reads and the snapshots published, in order. -/
def readLines : ScanService → List String → ScanService × List PyDict
  | s, [] => (s, [])
  | s, l :: rest =>
      let s1 := append_log s l
      let snap : PyDict :=
        [("status", Val.str "scanning"), ("output", Val.str l),
         ("logs", Val.strs s1.logs)]
      let r := readLines (set_progress s1 snap) rest
      (r.1, snap :: r.2)

/-- The exit of the loop: on end of stream log "Scan completed." and publish
`completed`; on an observed cancellation call `process.terminate()`, log
"Scan cancelled." and publish `cancelled`; on an exception log its text and
publish `error`.  Returns the state, the snapshot, and whether
`process.terminate()` was called. -/
def finishRun (s : ScanService) : RunEnding → ScanService × PyDict × Bool
  | RunEnding.eof =>
      let s1 := append_log s "Scan completed."
      let snap : PyDict :=
        [("status", Val.str "completed"), ("logs", Val.strs s1.logs)]
      (set_progress s1 snap, snap, false)
  | RunEnding.cancelled =>
      let s1 := append_log s "Scan cancelled."
      let snap : PyDict :=
        [("status", Val.str "cancelled"), ("logs", Val.strs s1.logs)]
      (set_progress s1 snap, snap, true)
  | RunEnding.exn m =>
      let s1 := append_log s ("Scan error: " ++ m)
      let snap : PyDict :=
        [("status", Val.str "error"), ("error", Val.str m),
         ("logs", Val.strs s1.logs)]
      (set_progress s1 snap, snap, false)

/-- `_run_scan`: startup phase, launch attempt, read loop, loop exit.
A launch failure logs `"Failed to start nmap: " ++ e` and publishes `error`.
If the cancellation event is already set when the run begins, the first poll
of the loop observes it, so no line is read and the loop ends cancelled
whatever the environment supplies. -/
def run_scan (s : ScanService) (env : ScanEnv) : RunResult :=
  let sp := startupPhase s
  match env.launch with
  | Except.error e =>
      let s1 := append_log sp.1 ("Failed to start nmap: " ++ e)
      let snapE : PyDict :=
        [("status", Val.str "error"), ("error", Val.str e),
         ("logs", Val.strs s1.logs)]
      { final := markDone (set_progress s1 snapE)
        trace := [sp.2, snapE]
        invoked := cmd
        terminated := false }
  | Except.ok _ =>
      let ls := if s.cancelEvent then [] else env.lines
      let ending := if s.cancelEvent then RunEnding.cancelled else env.ending
      let r := readLines sp.1 ls
      let f := finishRun r.1 ending
      { final := markDone f.1
        trace := sp.2 :: (r.2 ++ [f.2.1])
        invoked := cmd
        terminated := f.2.2 }

/-- Number of snapshots in a trace whose status is `cancelled`. -/
def cancelledCount (tr : List PyDict) : Nat :=
  tr.countP (fun snap => decide (getKey snap "status" = some (Val.str "cancelled")))

/-- Caller-supplied parameters used in the concrete scenarios. -/
def freshParams : PyDict := [("range", Val.str "10.0.0.0/24")]

/-- A concrete state whose task exists and has not finished. -/
def runningState : ScanService :=
  { task := some false, cancelEvent := false, progress := [],
    params := freshParams, logs := ["old line"] }

/-- The state after starting a scan from a fresh service and immediately
cancelling it, before the supervisor runs. -/
def cancelledStart : ScanService :=
  cancel_scan (start_scan init freshParams).2

/-- An environment whose process would still have produced a line: used to
show that an already-set cancellation event wins at the first poll. -/
def lateEnv : ScanEnv :=
  { launch := Except.ok (), lines := ["x"], ending := RunEnding.eof, exitCode := 0 }

end NetworkScanService

namespace NetworkScanService

theorem cmdString_eq : cmdString = "nmap -sn -T4 10.20.148.0/16" := rfl

theorem getLast_append_single {α : Type} (l : List α) (a : α) :
    (l ++ [a]).getLast? = some a := by
  induction l with
  | nil => rfl
  | cons x xs ih => rw [List.cons_append, List.getLast?_cons, ih]; rfl

theorem readLines_fst_logs (s : ScanService) (ls : List String) :
    ((readLines s ls).1).logs = s.logs ++ ls := by
  induction ls generalizing s with
  | nil => simp [readLines]
  | cons x xs ih => simp [readLines, ih, set_progress, append_log]

theorem readLines_fst_append (s : ScanService) (a b : List String) :
    (readLines s (a ++ b)).1 = (readLines (readLines s a).1 b).1 := by
  induction a generalizing s with
  | nil => simp [readLines]
  | cons x xs ih => simp [readLines, ih]

theorem start_scan_ok (s : ScanService) (p : PyDict) (h : s.task ≠ some false) :
    start_scan s p =
      (Except.ok (),
        { s with cancelEvent := false, params := p, logs := [], task := some false }) := by
  obtain ⟨t, ce, pr, pa, lg⟩ := s
  rcases t with _ | b
  · rfl
  · cases b
    · exact absurd rfl h
    · rfl

end NetworkScanService

namespace NetworkScanService

/-- C1: starting while a task exists and has not finished fails with
`RuntimeError("Scan already running")` and leaves the whole state — params,
logs, cancellation event and task — exactly as before the call. -/
theorem start_scan_already_running (s : ScanService) (p : PyDict)
    (h : s.task = some false) :
    start_scan s p = (Except.error "Scan already running", s) := by
  unfold start_scan
  rw [h]

/-- Witness for C1: a concrete state with an unfinished task. -/
theorem start_scan_already_running_witness :
    runningState.task = some false ∧
    start_scan runningState freshParams =
      (Except.error "Scan already running", runningState) :=
  ⟨rfl, start_scan_already_running runningState freshParams rfl⟩

/-- C6: when no task exists or the existing one has finished, `start_scan`
succeeds, clears the cancellation event, replaces the parameters, resets the
logs to empty and creates a new, not yet finished task. -/
theorem start_scan_resets (s : ScanService) (p : PyDict) (h : s.task ≠ some false) :
    start_scan s p =
      (Except.ok (),
        { s with cancelEvent := false, params := p, logs := [], task := some false }) :=
  start_scan_ok s p h

/-- Witness for C6 at the freshly initialised service. -/
theorem start_scan_resets_witness :
    init.task ≠ some false ∧
    start_scan init freshParams =
      (Except.ok (),
        { init with cancelEvent := false, params := freshParams, logs := [],
                    task := some false }) :=
  ⟨by decide, start_scan_resets init freshParams (by decide)⟩

/-- C10: before any scan has ever been started, `get_progress` returns a
dict whose only entry is `logs` mapped to the empty list; in particular it
has no `status` entry. -/
theorem get_progress_initial :
    get_progress init = [("logs", Val.strs [])] ∧
    getKey (get_progress init) "status" = none :=
  ⟨rfl, rfl⟩

/-- C9: for every service state (hence for every choice of parameters) and
every environment, the argument vector handed to `create_subprocess_exec`
and the `cmd` field of the `starting` snapshot are the fixed command
`nmap -sn -T4 10.20.148.0/16`; the parameters have no influence on it. -/
theorem run_scan_fixed_cmd (s : ScanService) (env : ScanEnv) :
    (run_scan s env).invoked = ["nmap", "-sn", "-T4", "10.20.148.0/16"] ∧
    getKey ((run_scan s env).trace.headD []) "cmd" =
      some (Val.str "nmap -sn -T4 10.20.148.0/16") := by
  rcases env with ⟨launch, lines, ending, ec⟩
  cases launch <;>
    simp [run_scan, startupPhase, cmd, cmdString_eq, getKey, set_progress, append_log]

end NetworkScanService

namespace NetworkScanService

/-- C2: after a permitted start, if the process launches, emits the lines
`ls` and then closes stdout (not via cancellation), the final published
status is `completed` — whatever the exit code `ec` — and the log sequence
is exactly the startup line, the emitted lines in arrival order, and the
"Scan completed." line. -/
theorem run_scan_completed (s : ScanService) (p : PyDict) (ls : List String)
    (ec : Int) (h : s.task ≠ some false) :
    getKey (get_progress (run_scan (start_scan s p).2
        { launch := Except.ok (), lines := ls, ending := RunEnding.eof,
          exitCode := ec }).final) "status" = some (Val.str "completed") ∧
    (run_scan (start_scan s p).2
        { launch := Except.ok (), lines := ls, ending := RunEnding.eof,
          exitCode := ec }).final.logs
      = startup_msg :: (ls ++ ["Scan completed."]) := by
  rw [start_scan_ok s p h]
  simp [run_scan, startupPhase, finishRun, markDone, set_progress, append_log,
    get_progress, setKey, getKey, readLines_fst_logs]

/-- Witness for C2: a fresh service, two output lines, exit code 0. -/
theorem run_scan_completed_witness :
    init.task ≠ some false ∧
    (getKey (get_progress (run_scan (start_scan init freshParams).2
        { launch := Except.ok (), lines := ["Nmap scan report", "Host is up"],
          ending := RunEnding.eof, exitCode := 0 }).final) "status"
        = some (Val.str "completed") ∧
     (run_scan (start_scan init freshParams).2
        { launch := Except.ok (), lines := ["Nmap scan report", "Host is up"],
          ending := RunEnding.eof, exitCode := 0 }).final.logs
        = startup_msg :: (["Nmap scan report", "Host is up"] ++ ["Scan completed."])) :=
  ⟨by decide,
   run_scan_completed init freshParams ["Nmap scan report", "Host is up"] 0 (by decide)⟩

/-- C3: if the scan's logs start empty and the process launches, and the
cancellation signal is set before the first polling point — either already
set in the state, or set concurrently so that the loop ends cancelled with
no line read — then the run calls `process.terminate()`, the final status is
`cancelled`, the logs are exactly the startup line and "Scan cancelled.",
and the trace shows no publication after the `cancelled` one. -/
theorem run_scan_cancel_before_read (s : ScanService) (env : ScanEnv)
    (hlogs : s.logs = []) (hl : env.launch = Except.ok ())
    (hc : s.cancelEvent = true ∨ (env.lines = [] ∧ env.ending = RunEnding.cancelled)) :
    (run_scan s env).terminated = true ∧
    (run_scan s env).final.logs = [startup_msg, "Scan cancelled."] ∧
    getKey (get_progress (run_scan s env).final) "status" = some (Val.str "cancelled") ∧
    (run_scan s env).trace =
      [[("status", Val.str "starting"), ("cmd", Val.str cmdString),
        ("logs", Val.strs [startup_msg])],
       [("status", Val.str "cancelled"),
        ("logs", Val.strs [startup_msg, "Scan cancelled."])]] := by
  rcases env with ⟨launch, lines, ending, ec⟩
  simp only at hl hc
  subst hl
  rcases hc with hc | ⟨h1, h2⟩
  · simp [run_scan, hc, startupPhase, readLines, finishRun, markDone,
      set_progress, append_log, get_progress, setKey, getKey, hlogs]
  · subst h1; subst h2
    cases hv : s.cancelEvent <;>
      simp [run_scan, hv, startupPhase, readLines, finishRun, markDone,
        set_progress, append_log, get_progress, setKey, getKey, hlogs]

/-- Witness for C3: start from a fresh service, cancel before the run, and
hand the run an environment that would otherwise read a line. -/
theorem run_scan_cancel_before_read_witness :
    (cancelledStart.logs = [] ∧ lateEnv.launch = Except.ok () ∧
      (cancelledStart.cancelEvent = true ∨
        (lateEnv.lines = [] ∧ lateEnv.ending = RunEnding.cancelled))) ∧
    ((run_scan cancelledStart lateEnv).terminated = true ∧
     (run_scan cancelledStart lateEnv).final.logs = [startup_msg, "Scan cancelled."] ∧
     getKey (get_progress (run_scan cancelledStart lateEnv).final) "status"
       = some (Val.str "cancelled") ∧
     (run_scan cancelledStart lateEnv).trace =
       [[("status", Val.str "starting"), ("cmd", Val.str cmdString),
         ("logs", Val.strs [startup_msg])],
        [("status", Val.str "cancelled"),
         ("logs", Val.strs [startup_msg, "Scan cancelled."])]]) :=
  ⟨⟨rfl, rfl, Or.inl rfl⟩,
   run_scan_cancel_before_read cancelledStart lateEnv rfl rfl (Or.inl rfl)⟩

end NetworkScanService

namespace NetworkScanService

/-- C5 counterexample: launching can raise an exception whose text is empty;
the run then publishes status `error` whose `error` field is the empty
string, so the published error message is not always non-empty. -/
theorem run_scan_launch_error_cex :
    getKey (get_progress (run_scan (start_scan init freshParams).2
        { launch := Except.error "", lines := [], ending := RunEnding.eof,
          exitCode := 0 }).final) "status" = some (Val.str "error") ∧
    getKey (get_progress (run_scan (start_scan init freshParams).2
        { launch := Except.error "", lines := [], ending := RunEnding.eof,
          exitCode := 0 }).final) "error" = some (Val.str "") :=
  ⟨rfl, rfl⟩

/-- C5 (amended): if launching raises an exception with text `e`, the run
logs the error, publishes status `error` with `e` as the error message
(non-empty whenever `e` is non-empty), publishes nothing further, and
`get_params` still returns the parameters passed to that start. -/
theorem run_scan_launch_error (s : ScanService) (p : PyDict) (e : String)
    (ls : List String) (ed : RunEnding) (ec : Int) (h : s.task ≠ some false) :
    (run_scan (start_scan s p).2
        { launch := Except.error e, lines := ls, ending := ed,
          exitCode := ec }).final.logs
      = [startup_msg, "Failed to start nmap: " ++ e] ∧
    getKey (get_progress (run_scan (start_scan s p).2
        { launch := Except.error e, lines := ls, ending := ed,
          exitCode := ec }).final) "status" = some (Val.str "error") ∧
    getKey (get_progress (run_scan (start_scan s p).2
        { launch := Except.error e, lines := ls, ending := ed,
          exitCode := ec }).final) "error" = some (Val.str e) ∧
    (e ≠ "" →
      getKey (get_progress (run_scan (start_scan s p).2
          { launch := Except.error e, lines := ls, ending := ed,
            exitCode := ec }).final) "error" ≠ some (Val.str "")) ∧
    (run_scan (start_scan s p).2
        { launch := Except.error e, lines := ls, ending := ed,
          exitCode := ec }).trace =
      [[("status", Val.str "starting"), ("cmd", Val.str cmdString),
        ("logs", Val.strs [startup_msg])],
       [("status", Val.str "error"), ("error", Val.str e),
        ("logs", Val.strs [startup_msg, "Failed to start nmap: " ++ e])]] ∧
    get_params (run_scan (start_scan s p).2
        { launch := Except.error e, lines := ls, ending := ed,
          exitCode := ec }).final = p := by
  rw [start_scan_ok s p h]
  simp [run_scan, startupPhase, markDone, set_progress, append_log,
    get_progress, get_params, setKey, getKey]

/-- Witness for C5 at a missing-binary style exception text. -/
theorem run_scan_launch_error_witness :
    init.task ≠ some false ∧
    ((run_scan (start_scan init freshParams).2
        { launch := Except.error "No such file or directory: nmap", lines := [],
          ending := RunEnding.eof, exitCode := 0 }).final.logs
      = [startup_msg, "Failed to start nmap: " ++ "No such file or directory: nmap"] ∧
     getKey (get_progress (run_scan (start_scan init freshParams).2
        { launch := Except.error "No such file or directory: nmap", lines := [],
          ending := RunEnding.eof, exitCode := 0 }).final) "status"
      = some (Val.str "error") ∧
     getKey (get_progress (run_scan (start_scan init freshParams).2
        { launch := Except.error "No such file or directory: nmap", lines := [],
          ending := RunEnding.eof, exitCode := 0 }).final) "error"
      = some (Val.str "No such file or directory: nmap") ∧
     ("No such file or directory: nmap" ≠ "" →
       getKey (get_progress (run_scan (start_scan init freshParams).2
          { launch := Except.error "No such file or directory: nmap", lines := [],
            ending := RunEnding.eof, exitCode := 0 }).final) "error"
        ≠ some (Val.str "")) ∧
     (run_scan (start_scan init freshParams).2
        { launch := Except.error "No such file or directory: nmap", lines := [],
          ending := RunEnding.eof, exitCode := 0 }).trace =
      [[("status", Val.str "starting"), ("cmd", Val.str cmdString),
        ("logs", Val.strs [startup_msg])],
       [("status", Val.str "error"), ("error", Val.str "No such file or directory: nmap"),
        ("logs", Val.strs [startup_msg,
          "Failed to start nmap: " ++ "No such file or directory: nmap"])]] ∧
     get_params (run_scan (start_scan init freshParams).2
        { launch := Except.error "No such file or directory: nmap", lines := [],
          ending := RunEnding.eof, exitCode := 0 }).final = freshParams) :=
  ⟨by decide,
   run_scan_launch_error init freshParams "No such file or directory: nmap"
     [] RunEnding.eof 0 (by decide)⟩

end NetworkScanService

namespace NetworkScanService

/-- C4 counterexample: in the run started from a fresh service, after 0
successfully read output lines the log sequence already has length 1 — the
startup line — not 0 as the claim would require at N = 0. -/
theorem log_length_after_reads_cex :
    ((readLines (startupPhase (start_scan init freshParams).2).1
        (["host up"].take 0)).1).logs.length = 1 ∧
    ¬ ((readLines (startupPhase (start_scan init freshParams).2).1
        (["host up"].take 0)).1).logs.length = 0 := by
  constructor
  · rfl
  · decide

/-- C4 (amended): in a run whose logs start empty, after N successfully read
output lines the log sequence is the startup line followed by those N lines
in arrival order — length N + 1 — and the state after N reads is exactly an
intermediate state of the full read loop. -/
theorem log_length_after_reads (s : ScanService) (ls : List String) (n : Nat)
    (hlogs : s.logs = []) (hn : n ≤ ls.length) :
    ((readLines (startupPhase s).1 (ls.take n)).1).logs
      = startup_msg :: ls.take n ∧
    ((readLines (startupPhase s).1 (ls.take n)).1).logs.length = n + 1 ∧
    (readLines (startupPhase s).1 ls).1 =
      (readLines ((readLines (startupPhase s).1 (ls.take n)).1) (ls.drop n)).1 := by
  have hlog1 : ((readLines (startupPhase s).1 (ls.take n)).1).logs
      = startup_msg :: ls.take n := by
    simp [readLines_fst_logs, startupPhase, append_log, set_progress, hlogs]
  refine ⟨hlog1, ?_, ?_⟩
  · simp [hlog1, List.length_take, Nat.min_eq_left hn]
  · conv_lhs => rw [← List.take_append_drop n ls]
    exact readLines_fst_append _ _ _

/-- Witness for C4 at a two-line stream with N = 1. -/
theorem log_length_after_reads_witness :
    ((start_scan init freshParams).2.logs = [] ∧ 1 ≤ ["a", "b"].length) ∧
    (((readLines (startupPhase (start_scan init freshParams).2).1
         (["a", "b"].take 1)).1).logs = startup_msg :: ["a", "b"].take 1 ∧
     ((readLines (startupPhase (start_scan init freshParams).2).1
         (["a", "b"].take 1)).1).logs.length = 1 + 1 ∧
     (readLines (startupPhase (start_scan init freshParams).2).1 ["a", "b"]).1 =
       (readLines ((readLines (startupPhase (start_scan init freshParams).2).1
           (["a", "b"].take 1)).1) (["a", "b"].drop 1)).1) :=
  ⟨⟨rfl, by decide⟩,
   log_length_after_reads (start_scan init freshParams).2 ["a", "b"] 1 rfl (by decide)⟩

end NetworkScanService

namespace NetworkScanService

theorem readLines_status_scanning (s : ScanService) (ls : List String) :
    ∀ snap ∈ (readLines s ls).2, getKey snap "status" = some (Val.str "scanning") := by
  induction ls generalizing s with
  | nil => intro snap h; simp [readLines] at h
  | cons x xs ih =>
      intro snap h
      simp only [readLines, List.mem_cons] at h
      rcases h with h | h
      · subst h; rfl
      · exact ih _ snap h

theorem countP_cancelled_readLines (s : ScanService) (ls : List String) :
    List.countP (fun snap => decide (getKey snap "status" = some (Val.str "cancelled")))
      (readLines s ls).2 = 0 := by
  rw [List.countP_eq_zero]
  intro a ha
  simp [readLines_status_scanning s ls a ha]

/-- C7: `cancel_scan` is idempotent and total — it only sets the
cancellation event, leaving every other field alone, from any state — and
any single run publishes at most one `cancelled` status. -/
theorem cancel_scan_idempotent (s : ScanService) (env : ScanEnv) :
    cancel_scan (cancel_scan s) = cancel_scan s ∧
    (cancel_scan s).cancelEvent = true ∧
    cancel_scan s = { s with cancelEvent := true } ∧
    cancelledCount (run_scan s env).trace ≤ 1 := by
  refine ⟨rfl, rfl, rfl, ?_⟩
  rcases env with ⟨launch, lines, ending, ec⟩
  cases launch with
  | error e =>
      simp [run_scan, cancelledCount, List.countP_cons, startupPhase,
        set_progress, append_log, getKey]
  | ok u =>
      cases hv : s.cancelEvent <;> cases ending <;>
        simp [run_scan, hv, cancelledCount, List.countP_cons, List.countP_append,
          startupPhase, readLines, finishRun, set_progress, append_log, getKey,
          countP_cancelled_readLines]

/-- C8: every exit path of the supervisor publishes at least one snapshot,
the last published snapshot is exactly the final progress, and its status is
terminal: `completed`, `cancelled` or `error`. -/
theorem run_scan_terminal (s : ScanService) (env : ScanEnv) :
    (run_scan s env).trace ≠ [] ∧
    (run_scan s env).trace.getLast? = some (run_scan s env).final.progress ∧
    (getKey (run_scan s env).final.progress "status" = some (Val.str "completed") ∨
     getKey (run_scan s env).final.progress "status" = some (Val.str "cancelled") ∨
     getKey (run_scan s env).final.progress "status" = some (Val.str "error")) := by
  rcases env with ⟨launch, lines, ending, ec⟩
  cases launch with
  | error e =>
      simp [run_scan, startupPhase, markDone, set_progress, append_log, getKey]
  | ok u =>
      cases hv : s.cancelEvent <;> cases ending <;>
        simp [run_scan, hv, startupPhase, readLines, finishRun, markDone,
          set_progress, append_log, getKey, getLast_append_single,
          List.getLast?_cons, List.getLast?_eq_none_iff]
end NetworkScanService
